import Mathlib

set_option autoImplicit false

/-!
Shallow embedding of the role-synchronization core of the saes-discord-bot
repository: the mapping cache (bot/core/role_mapper.py, bot/config.py), the
diff and apply steps of the sync engine (bot/core/sync_engine.py), the
manageability partition (bot/core/permissions.py) and the debounce queue
(bot/cogs/role_monitor.py).  Discord identifiers are modelled as natural
numbers, Python dicts as association lists with at-most-one entry per key,
Python sets as deduplicated lists, and every external API outcome as an
explicit value supplied by the environment.
-/

namespace SaesBot

/-! Python dictionary scaffolding.  The in-memory mapping cache and the
pending-sync queue are CPython dicts; an assignment overwrites the value of
an existing key in place and otherwise appends a fresh entry. -/

/-- Assignment d[k] = v on a Python dict modelled as an association list. -/
def dictInsert {α β : Type} [DecidableEq α] : List (α × β) → α → β → List (α × β)
  | [], k, v => [(k, v)]
  | (k0, v0) :: rest, k, v =>
    if k0 = k then (k0, v) :: rest else (k0, v0) :: dictInsert rest k v

/-- Lookup d.get(k) on a Python dict modelled as an association list. -/
def dictGet {α β : Type} [DecidableEq α] : List (α × β) → α → Option β
  | [], _ => none
  | (k0, v0) :: rest, k => if k0 = k then some v0 else dictGet rest k

/-- Removal d.pop(k, None) on a Python dict modelled as an association list. -/
def dictErase {α β : Type} [DecidableEq α] (d : List (α × β)) (k : α) : List (α × β) :=
  d.filter (fun e => decide (e.1 ≠ k))

/-! Mapping data model, from bot/config.py (dataclass RoleMapping) and the
in-memory cache of bot/core/role_mapper.py (RoleMapper._mapping_cache, a dict
from (source_server_id, source_role_id) to target_role_id holding exactly the
enabled mappings). -/

/-- RoleMapping dataclass of bot/config.py. -/
structure RoleMapping where
  id : String
  source_server_id : ℕ
  source_role_id : ℕ
  target_server_id : ℕ
  target_role_id : ℕ
  description : String
  enabled : Bool
deriving DecidableEq

/-- The in-memory mapping cache of RoleMapper. -/
abbrev MappingCache := List ((ℕ × ℕ) × ℕ)

/-- RoleMapper.load_mappings: fills the cache with the enabled mappings,
keyed by (source_server_id, source_role_id). -/
def load_mappings (mappings : List RoleMapping) : MappingCache :=
  mappings.foldl
    (fun cache m =>
      if m.enabled then
        dictInsert cache (m.source_server_id, m.source_role_id) m.target_role_id
      else cache)
    []

/-- RoleMapper.get_target_role: cache lookup, none when no enabled mapping
matches the pair. -/
def get_target_role (cache : MappingCache) (source_server_id source_role_id : ℕ) : Option ℕ :=
  dictGet cache (source_server_id, source_role_id)

/-- RoleMapper.get_all_target_roles: maps each pair through the cache,
keeps truthy results, deduplicates (the Python code accumulates into a set). -/
def get_all_target_roles (cache : MappingCache) (source_roles : List (ℕ × ℕ)) : List ℕ :=
  ((source_roles.filterMap (fun p => get_target_role cache p.1 p.2)).filter
    (fun t => decide (t ≠ 0))).dedup

/-- RoleMapper.has_mapping: key membership in the cache. -/
def has_mapping (cache : MappingCache) (source_server_id source_role_id : ℕ) : Bool :=
  (dictGet cache (source_server_id, source_role_id)).isSome

/-- Modelled from the spec: the method RoleMapper.is_target_role is invoked by
SyncEngine.calculate_role_changes (sync_engine.py line 468) but its definition
is missing from the source tree; per the specification it is a membership test
of a role id against the reverse set of target role ids of all enabled
mappings, used to decide whether the engine may ever remove that role. -/
def is_target_role (cache : MappingCache) (role_id : ℕ) : Bool :=
  cache.any (fun e => e.2 == role_id)

/-! Administrative operations on the mapping store, from bot/config.py
(Config.add_role_mapping, remove_role_mapping, update_role_mapping,
get_mapping_by_id) and bot/core/role_mapper.py (RoleMapper.add_mapping,
remove_mapping, update_mapping).  Database writes are observability only and
are not modelled; an exception is an error value. -/

/-- Config.add_role_mapping: rejects a duplicate id before any mutation,
otherwise appends the mapping. -/
def add_role_mapping (mappings : List RoleMapping) (m : RoleMapping) :
    Except String (List RoleMapping) :=
  if mappings.any (fun m0 => m0.id == m.id) then
    Except.error ("mapping id already exists: " ++ m.id)
  else
    Except.ok (mappings ++ [m])

/-- Config.get_mapping_by_id: first mapping with the given id. -/
def get_mapping_by_id (mappings : List RoleMapping) (mapping_id : String) :
    Option RoleMapping :=
  mappings.find? (fun m => m.id == mapping_id)

/-- Config.remove_role_mapping: drops every mapping with the given id and
reports whether the list shrank. -/
def remove_role_mapping (mappings : List RoleMapping) (mapping_id : String) :
    List RoleMapping × Bool :=
  let kept := mappings.filter (fun m => decide (¬ m.id = mapping_id))
  (kept, decide (kept.length < mappings.length))

/-- Config.update_role_mapping: replaces the first mapping with a matching id. -/
def update_role_mapping (mappings : List RoleMapping) (m : RoleMapping) :
    List RoleMapping × Bool :=
  match mappings with
  | [] => ([], false)
  | m0 :: rest =>
    if m0.id = m.id then (m :: rest, true)
    else
      let r := update_role_mapping rest m
      (m0 :: r.1, r.2)

/-- Combined state of the mapping store: the durable list owned by Config and
the in-memory cache owned by RoleMapper. -/
structure MapperState where
  mappings : List RoleMapping
  cache : MappingCache
deriving DecidableEq

/-- RoleMapper.add_mapping: builds the mapping, adds it to the config (which
raises on a duplicate id before mutating anything), then updates the cache
when the mapping is enabled.  The first component is the raised error, if
any; the second is the state visible afterwards. -/
def RoleMapper_add_mapping (st : MapperState) (mapping_id : String)
    (source_server_id source_role_id target_server_id target_role_id : ℕ)
    (description : String) (enabled : Bool) : Option String × MapperState :=
  let m : RoleMapping :=
    { id := mapping_id
      source_server_id := source_server_id
      source_role_id := source_role_id
      target_server_id := target_server_id
      target_role_id := target_role_id
      description := description
      enabled := enabled }
  match add_role_mapping st.mappings m with
  | Except.error msg => (some ("failed to add mapping: " ++ msg), st)
  | Except.ok ms =>
    let cache :=
      if enabled then dictInsert st.cache (source_server_id, source_role_id) target_role_id
      else st.cache
    (none, { mappings := ms, cache := cache })

/-- RoleMapper.remove_mapping: unknown id returns false without touching any
state; otherwise the mapping is removed from the config and its key popped
from the cache. -/
def RoleMapper_remove_mapping (st : MapperState) (mapping_id : String) :
    Bool × MapperState :=
  match get_mapping_by_id st.mappings mapping_id with
  | none => (false, st)
  | some m =>
    let ms := (remove_role_mapping st.mappings mapping_id).1
    let cache := dictErase st.cache (m.source_server_id, m.source_role_id)
    (true, { mappings := ms, cache := cache })

/-- RoleMapper.update_mapping: unknown id returns false without touching any
state; otherwise the enabled flag and description are updated in the config
and the cache entry is inserted or popped according to the new enabled flag. -/
def RoleMapper_update_mapping (st : MapperState) (mapping_id : String)
    (enabled : Option Bool) (description : Option String) : Bool × MapperState :=
  match get_mapping_by_id st.mappings mapping_id with
  | none => (false, st)
  | some m =>
    let m1 : RoleMapping :=
      { m with
          enabled := enabled.getD m.enabled
          description := description.getD m.description }
    let ms := (update_role_mapping st.mappings m1).1
    let key := (m.source_server_id, m.source_role_id)
    let cache :=
      if m1.enabled then dictInsert st.cache key m1.target_role_id
      else dictErase st.cache key
    (true, { mappings := ms, cache := cache })

/-! Discord-side data observed by the engine.  A role carries its id and its
default flag (the everyone role); a guild fetch of the subject either raises a
transient error, reports the subject absent, or yields the subject with its
role list.  Manageability (hierarchy position, managed flag, default role,
missing role, missing bot permissions) is an oracle of the environment, as is
the outcome of the external role-mutation calls. -/

/-- A Discord role as seen by the engine: its id and whether it is the
default everyone role. -/
structure DRole where
  id : ℕ
  is_default : Bool
deriving DecidableEq

/-- Role ids of a member excluding the default role, as the engine computes
them everywhere (role.id for role in member.roles if not role.is_default()). -/
def nonDefaultIds (roles : List DRole) : List ℕ :=
  (roles.filter (fun r => !r.is_default)).map DRole.id

/-- Outcome of fetch_member on one source guild. -/
inductive FetchOutcome where
  | error
  | notFound
  | found (roles : List DRole)
deriving DecidableEq

/-- One guild known to the bot, with the fetch outcome for the subject. -/
structure GuildData where
  id : ℕ
  fetch : FetchOutcome
deriving DecidableEq

/-- Outcome of the bulk member.add_roles call: it succeeds, is rejected with
Forbidden (after which the engine retries one role at a time, each retry
succeeding according to the per-role oracle), or raises another exception
(after which every role counts as failed). -/
inductive AddOutcome where
  | ok
  | forbidden (perRoleOk : ℕ → Bool)
  | exn

/-- A role-mutation API call issued against the target guild. -/
inductive MutationCall where
  | addCall (role_ids : List ℕ)
  | removeCall (role_ids : List ℕ)
deriving DecidableEq

/-- Environment of one sync_user_roles invocation: configuration, the guilds
the bot is in, the subject resolution on the main guild, the manageability
oracles on the main guild, the mapping cache and the mutation outcomes. -/
structure SyncEnv where
  main_server_id : ℕ
  guilds : List GuildData
  main_guild_found : Bool
  main_member : Option (List DRole)
  role_exists : ℕ → Bool
  can_manage : ℕ → Bool
  cache : MappingCache
  add_outcome : AddOutcome
  remove_ok : Bool

/-- SyncResult dataclass of bot/core/sync_engine.py (audit fields only; the
diagnostic extras and the timestamp are not modelled). -/
structure SyncResult where
  success : Bool
  user_id : ℕ
  roles_added : List ℕ
  roles_removed : List ℕ
  roles_failed : List ℕ
  errors : List String
  source_servers : List ℕ
deriving DecidableEq

/-- Error message recorded when fetching the subject from a guild raises. -/
def fetchErrorMsg (guild_id : ℕ) : String :=
  "failed to fetch data from guild " ++ toString guild_id

/-- Loop body of get_user_roles_from_all_guilds: walks the source guilds in
order, collecting the guilds where the subject was found, the per-guild
non-default role ids when non-empty, and the fetch error messages. -/
def gatherRoles : List GuildData → List ℕ × List (ℕ × List ℕ) × List String
  | [] => ([], [], [])
  | g :: rest =>
    let acc := gatherRoles rest
    match g.fetch with
    | FetchOutcome.error => (acc.1, acc.2.1, fetchErrorMsg g.id :: acc.2.2)
    | FetchOutcome.notFound => acc
    | FetchOutcome.found roles =>
      let role_ids := nonDefaultIds roles
      if role_ids.isEmpty then (g.id :: acc.1, acc.2.1, acc.2.2)
      else (g.id :: acc.1, (g.id, role_ids) :: acc.2.1, acc.2.2)

/-- SyncEngine.get_user_roles_from_all_guilds: parallel fetch over every guild
except the main one; returns (mutual guild ids, user roles map, fetch errors). -/
def get_user_roles_from_all_guilds (env : SyncEnv) :
    List ℕ × List (ℕ × List ℕ) × List String :=
  let guilds_to_check := env.guilds.filter (fun g => decide (g.id ≠ env.main_server_id))
  if guilds_to_check.isEmpty then ([], [], [])
  else gatherRoles guilds_to_check

/-- SyncEngine.calculate_target_roles: flattens the user roles map into
(server_id, role_id) pairs and maps them through the cache. -/
def calculate_target_roles (cache : MappingCache) (user_roles_map : List (ℕ × List ℕ)) :
    List ℕ :=
  let source_roles := user_roles_map.flatMap (fun p => p.2.map (fun rid => (p.1, rid)))
  get_all_target_roles cache source_roles

/-- get_manageable_roles of bot/core/permissions.py: partitions role ids into
the manageable ones and the unmanageable ones (missing from the guild, above
the bot in the hierarchy, managed, or default). -/
def get_manageable_roles (role_exists can_manage : ℕ → Bool) :
    List ℕ → List ℕ × List ℕ
  | [] => ([], [])
  | role_id :: rest =>
    let acc := get_manageable_roles role_exists can_manage rest
    if !role_exists role_id then (acc.1, role_id :: acc.2)
    else if can_manage role_id then (role_id :: acc.1, acc.2)
    else (acc.1, role_id :: acc.2)

/-- SyncEngine.calculate_role_changes: diffs the current non-default role ids
of the member against the computed target role ids, keeps only manageable
roles on the add side (collecting the rest as unmanageable), and on the remove
side keeps only roles that are the target of some enabled mapping and are
manageable.  Returns (roles_to_add, roles_to_remove, unmanageable_role_ids). -/
def calculate_role_changes (cache : MappingCache) (role_exists can_manage : ℕ → Bool)
    (member_roles : List DRole) (target_role_ids : List ℕ) :
    List ℕ × List ℕ × List ℕ :=
  let current_role_ids := (nonDefaultIds member_roles).dedup
  let target_role_ids_set := target_role_ids.dedup
  let roles_to_add_ids :=
    target_role_ids_set.filter (fun x => decide (x ∉ current_role_ids))
  let roles_to_remove_ids :=
    current_role_ids.filter (fun x => decide (x ∉ target_role_ids_set))
  let addPart :=
    if roles_to_add_ids.isEmpty then ([], [])
    else get_manageable_roles role_exists can_manage roles_to_add_ids
  let mapped_role_ids := roles_to_remove_ids.filter (fun r => is_target_role cache r)
  let roles_to_remove :=
    if mapped_role_ids.isEmpty then []
    else (get_manageable_roles role_exists can_manage mapped_role_ids).1
  (addPart.1, roles_to_remove, addPart.2)

/-- Result of SyncEngine.apply_role_changes, together with the trace of
role-mutation API calls it issued. -/
structure ApplyResult where
  success : Bool
  actually_added : List ℕ
  failed_to_add : List ℕ
  calls : List MutationCall
deriving DecidableEq

/-- SyncEngine.apply_role_changes: one bulk add call; on Forbidden a per-role
fallback that sorts each role into added or failed; on any other exception all
roles fail.  The removal is one bulk call whose failure is only logged; it
affects neither the returned lists nor the success flag. -/
def apply_role_changes (add_outcome : AddOutcome)
    (roles_to_add roles_to_remove : List ℕ) : ApplyResult :=
  let addPart :=
    if roles_to_add.isEmpty then ([], [], ([] : List MutationCall))
    else
      match add_outcome with
      | AddOutcome.ok => (roles_to_add, [], [MutationCall.addCall roles_to_add])
      | AddOutcome.forbidden perRoleOk =>
        (roles_to_add.filter perRoleOk,
         roles_to_add.filter (fun r => !perRoleOk r),
         MutationCall.addCall roles_to_add ::
           roles_to_add.map (fun r => MutationCall.addCall [r]))
      | AddOutcome.exn => ([], roles_to_add, [MutationCall.addCall roles_to_add])
  let remove_calls :=
    if roles_to_remove.isEmpty then ([] : List MutationCall)
    else [MutationCall.removeCall roles_to_remove]
  { success := addPart.2.1.isEmpty
    actually_added := addPart.1
    failed_to_add := addPart.2.1
    calls := addPart.2.2 ++ remove_calls }

/-- SyncEngine.sync_user_roles: the full reconciliation of one subject, paired
with the trace of role-mutation calls issued on the target guild.  Database
writes are observability only and are not modelled. -/
def sync_user_roles (env : SyncEnv) (user_id : ℕ) : SyncResult × List MutationCall :=
  let base : SyncResult :=
    { success := false
      user_id := user_id
      roles_added := []
      roles_removed := []
      roles_failed := []
      errors := []
      source_servers := [] }
  if !env.main_guild_found then
    ({ base with errors := ["main guild not found"] }, [])
  else
    match env.main_member with
    | none => ({ base with errors := ["user not found on main guild"] }, [])
    | some member_roles =>
      let gr := get_user_roles_from_all_guilds env
      let mutual_guilds := gr.1
      let user_roles_map := gr.2.1
      let fetch_errors := gr.2.2
      if mutual_guilds.isEmpty && fetch_errors.isEmpty then
        ({ base with success := true }, [])
      else if mutual_guilds.isEmpty then
        ({ base with errors := fetch_errors }, [])
      else
        let target_role_ids := calculate_target_roles env.cache user_roles_map
        let changes :=
          calculate_role_changes env.cache env.role_exists env.can_manage
            member_roles target_role_ids
        let roles_to_add := changes.1
        let roles_to_remove := changes.2.1
        let unmanageable_role_ids := changes.2.2
        let ar := apply_role_changes env.add_outcome roles_to_add roles_to_remove
        let all_failed := ar.failed_to_add ++ unmanageable_role_ids
        ({ base with
            success := all_failed.isEmpty && fetch_errors.isEmpty
            roles_added := ar.actually_added
            roles_removed := roles_to_remove
            roles_failed := all_failed
            errors := fetch_errors
            source_servers := user_roles_map.map Prod.fst },
         ar.calls)

/-- Effect of the first run mutations on the member roles of the target
guild: the roles reported removed disappear only when the remove call
succeeded (rok), and the roles actually added appear as fresh non-default
roles. -/
def apply_mutations (rok : Bool) (member_roles : List DRole)
    (added removed : List ℕ) : List DRole :=
  let afterRemove :=
    if rok then member_roles.filter (fun r => decide (r.id ∉ removed))
    else member_roles
  afterRemove ++ added.map (fun rid => { id := rid, is_default := false })

/-- Environment of the second run of an immediate re-reconciliation: the only
difference to the first run is that the member on the main guild now carries
the result of the mutations the first run applied; sources, mappings and the
external world are unchanged. -/
def env_after_sync (env : SyncEnv) (user_id : ℕ) : SyncEnv :=
  match env.main_member with
  | none => env
  | some roles =>
    { env with
        main_member := some (apply_mutations env.remove_ok roles
          (sync_user_roles env user_id).1.roles_added
          (sync_user_roles env user_id).1.roles_removed) }

/-! Debounce queue, from bot/cogs/role_monitor.py.  The queue is a dict from
user id to the timestamp of the last qualifying change; timestamps are
naturals. -/

/-- RoleMonitorCog.schedule_sync: upserts the subject with the current time,
overwriting the timestamp of an already pending subject. -/
def schedule_sync (pending : List (ℕ × ℕ)) (user_id now : ℕ) : List (ℕ × ℕ) :=
  dictInsert pending user_id now

/-- Drain body of RoleMonitorCog.process_pending_syncs: entries whose age has
reached the debounce delay are removed from the queue and dispatched, in queue
order; the rest stay pending.  Returns (dispatched user ids, new queue). -/
def process_pending_syncs (pending : List (ℕ × ℕ)) (now debounce_delay : ℕ) :
    List ℕ × List (ℕ × ℕ) :=
  ((pending.filter (fun e => decide (debounce_delay ≤ now - e.2))).map Prod.fst,
   pending.filter (fun e => decide (¬ debounce_delay ≤ now - e.2)))

/-! Characterizations of the pipeline pieces, used by the claim theorems. -/

/-- Current non-default role ids of the member, as a set. -/
def currentIds (member_roles : List DRole) : List ℕ :=
  (nonDefaultIds member_roles).dedup

/-- Set of role ids the diff wants to add: computed targets minus current. -/
def addIds (member_roles : List DRole) (target_role_ids : List ℕ) : List ℕ :=
  target_role_ids.dedup.filter (fun x => decide (x ∉ currentIds member_roles))

/-- Set of role ids the diff considers removing: current minus targets. -/
def removeCandidates (member_roles : List DRole) (target_role_ids : List ℕ) : List ℕ :=
  (currentIds member_roles).filter (fun x => decide (x ∉ target_role_ids.dedup))

/-- Manageability predicate of get_manageable_roles: the role resolves on the
guild and can_manage_role accepts it. -/
def managePred (role_exists can_manage : ℕ → Bool) (r : ℕ) : Bool :=
  role_exists r && can_manage r

/-- Keys of a dict, in order. -/
def dictKeys {α β : Type} (d : List (α × β)) : List α :=
  d.map Prod.fst

/-! Concrete environments and states used by witnesses and counterexamples. -/

/-- Environment in which the subject holds mapped target role 401 but has no
roles on the single source guild: role 401 is removed. -/
def envC2 : SyncEnv :=
  { main_server_id := 1
    guilds := [{ id := 2, fetch := FetchOutcome.found [{ id := 77, is_default := false }] }]
    main_guild_found := true
    main_member := some [{ id := 401, is_default := false }]
    role_exists := fun _ => true
    can_manage := fun _ => true
    cache := [((2, 100), 401)]
    add_outcome := AddOutcome.ok
    remove_ok := true }

/-- Environment in which the subject holds source role 100 on guild 2 and the
mapping grants target role 401: role 401 is added. -/
def envC5 : SyncEnv :=
  { main_server_id := 1
    guilds := [{ id := 2, fetch := FetchOutcome.found [{ id := 100, is_default := false }] }]
    main_guild_found := true
    main_member := some []
    role_exists := fun _ => true
    can_manage := fun _ => true
    cache := [((2, 100), 401)]
    add_outcome := AddOutcome.ok
    remove_ok := true }

/-- Environment for the C3 counterexample: the subject is absent from the
main guild, every source fetch would succeed, yet the result is a failure
with an empty roles_failed list. -/
def envC3 : SyncEnv :=
  { main_server_id := 1
    guilds := [{ id := 2, fetch := FetchOutcome.found [{ id := 100, is_default := false }] }]
    main_guild_found := true
    main_member := none
    role_exists := fun _ => true
    can_manage := fun _ => true
    cache := [((2, 100), 401)]
    add_outcome := AddOutcome.ok
    remove_ok := true }

/-- Environment for the C3 witness: a fully successful reconciliation. -/
def envC3w : SyncEnv :=
  { main_server_id := 1
    guilds := [{ id := 2, fetch := FetchOutcome.found [{ id := 100, is_default := false }] }]
    main_guild_found := true
    main_member := some [{ id := 55, is_default := false }]
    role_exists := fun _ => true
    can_manage := fun _ => true
    cache := [((2, 100), 401)]
    add_outcome := AddOutcome.ok
    remove_ok := true }

/-- Environment for the C4 witness: the only source guild raises on fetch. -/
def envC4 : SyncEnv :=
  { main_server_id := 1
    guilds := [{ id := 2, fetch := FetchOutcome.error }]
    main_guild_found := true
    main_member := some [{ id := 401, is_default := false }]
    role_exists := fun _ => true
    can_manage := fun _ => true
    cache := [((2, 100), 401)]
    add_outcome := AddOutcome.ok
    remove_ok := true }

/-- Environment for the C6 counterexample: the subject holds stale mapped
target role 401, and the remove call is rejected by the platform. -/
def envC6 : SyncEnv :=
  { main_server_id := 1
    guilds := [{ id := 2, fetch := FetchOutcome.found [{ id := 77, is_default := false }] }]
    main_guild_found := true
    main_member := some [{ id := 401, is_default := false }]
    role_exists := fun _ => true
    can_manage := fun _ => true
    cache := [((2, 100), 401)]
    add_outcome := AddOutcome.ok
    remove_ok := false }

/-- Environment for the C6 witness: same scenario with the remove call
succeeding. -/
def envC6w : SyncEnv :=
  { main_server_id := 1
    guilds := [{ id := 2, fetch := FetchOutcome.found [{ id := 77, is_default := false }] }]
    main_guild_found := true
    main_member := some [{ id := 401, is_default := false }]
    role_exists := fun _ => true
    can_manage := fun _ => true
    cache := [((2, 100), 401)]
    add_outcome := AddOutcome.ok
    remove_ok := true }

/-- Environment for the C10 witness: the subject exists on the main guild
with a mapped target role but is a member of no source guild. -/
def envC10 : SyncEnv :=
  { main_server_id := 1
    guilds := [{ id := 2, fetch := FetchOutcome.notFound }]
    main_guild_found := true
    main_member := some [{ id := 401, is_default := false }]
    role_exists := fun _ => true
    can_manage := fun _ => true
    cache := [((2, 100), 401)]
    add_outcome := AddOutcome.ok
    remove_ok := true }

/-- Subject id used by the C7 witness. -/
def u7 : ℕ := 7

/-- Scenario environment of C1: the subject holds target-side role T1 on the
main guild, is a member of one source guild with no roles there, and T1 is
the target of some enabled mapping. -/
def envOneStale (mainId srcId T1 : ℕ) (cache : MappingCache) (re cm : ℕ → Bool)
    (ao : AddOutcome) (rok : Bool) : SyncEnv :=
  { main_server_id := mainId
    guilds := [{ id := srcId, fetch := FetchOutcome.found [] }]
    main_guild_found := true
    main_member := some [{ id := T1, is_default := false }]
    role_exists := re
    can_manage := cm
    cache := cache
    add_outcome := ao
    remove_ok := rok }

/-- Mapping store state with one mapping, used by the C9 witness. -/
def stC9 : MapperState :=
  { mappings :=
      [{ id := "m1"
         source_server_id := 2
         source_role_id := 100
         target_server_id := 1
         target_role_id := 401
         description := "demo"
         enabled := true }]
    cache := [((2, 100), 401)] }

theorem get_manageable_roles_eq (re cm : ℕ → Bool) (ids : List ℕ) :
    get_manageable_roles re cm ids =
      (ids.filter (managePred re cm), ids.filter (fun r => !(managePred re cm r))) := by
  induction ids with
  | nil => rfl
  | cons i rest ih =>
    simp only [get_manageable_roles, ih, List.filter_cons, managePred]
    by_cases hre : re i = true <;> by_cases hcm : cm i = true <;>
      simp [hre, hcm, Bool.eq_false_iff.mpr]

theorem calculate_role_changes_eq (cache : MappingCache) (re cm : ℕ → Bool)
    (member_roles : List DRole) (tgt : List ℕ) :
    calculate_role_changes cache re cm member_roles tgt =
      ((addIds member_roles tgt).filter (managePred re cm),
       ((removeCandidates member_roles tgt).filter
          (fun r => is_target_role cache r)).filter (managePred re cm),
       (addIds member_roles tgt).filter (fun r => !(managePred re cm r))) := by
  simp only [calculate_role_changes, get_manageable_roles_eq, addIds,
    removeCandidates, currentIds]
  split_ifs with h1 h2 h2
  · rw [List.isEmpty_iff.mp h1, List.isEmpty_iff.mp h2]
    simp
  · rw [List.isEmpty_iff.mp h1]
    simp
  · rw [List.isEmpty_iff.mp h2]
    simp
  · simp

theorem apply_ok_eq (l r : List ℕ) :
    (apply_role_changes AddOutcome.ok l r).actually_added = l ∧
      (apply_role_changes AddOutcome.ok l r).failed_to_add = [] := by
  by_cases h : l.isEmpty
  · rw [List.isEmpty_iff.mp h]
    simp [apply_role_changes]
  · simp [apply_role_changes, h]

theorem apply_forbidden_eq (f : ℕ → Bool) (l r : List ℕ) :
    (apply_role_changes (AddOutcome.forbidden f) l r).actually_added = l.filter f ∧
      (apply_role_changes (AddOutcome.forbidden f) l r).failed_to_add =
        l.filter (fun x => !(f x)) := by
  by_cases h : l.isEmpty
  · rw [List.isEmpty_iff.mp h]
    simp [apply_role_changes]
  · simp [apply_role_changes, h]

theorem apply_exn_eq (l r : List ℕ) :
    (apply_role_changes AddOutcome.exn l r).actually_added = [] ∧
      (apply_role_changes AddOutcome.exn l r).failed_to_add = l := by
  by_cases h : l.isEmpty
  · rw [List.isEmpty_iff.mp h]
    simp [apply_role_changes]
  · simp [apply_role_changes, h]

theorem mem_actually_added {o : AddOutcome} {l r : List ℕ} {x : ℕ} :
    x ∈ (apply_role_changes o l r).actually_added → x ∈ l := by
  intro hx
  cases o with
  | ok => exact ((apply_ok_eq l r).1 ▸ hx)
  | forbidden f =>
    have := (apply_forbidden_eq f l r).1 ▸ hx
    exact (List.mem_filter.mp this).1
  | exn =>
    rw [(apply_exn_eq l r).1] at hx
    exact absurd hx (List.not_mem_nil x)

/-! Dictionary lemmas. -/

theorem dictGet_insert_self {α β : Type} [DecidableEq α]
    (d : List (α × β)) (k : α) (v : β) :
    dictGet (dictInsert d k v) k = some v := by
  induction d with
  | nil => simp [dictInsert, dictGet]
  | cons e rest ih =>
    obtain ⟨k0, v0⟩ := e
    by_cases h : k0 = k <;> simp [dictInsert, dictGet, h, ih]

theorem dictGet_insert_ne {α β : Type} [DecidableEq α]
    (d : List (α × β)) (k k2 : α) (v : β) (h : k2 ≠ k) :
    dictGet (dictInsert d k v) k2 = dictGet d k2 := by
  induction d with
  | nil => simp [dictInsert, dictGet, Ne.symm h]
  | cons e rest ih =>
    obtain ⟨k0, v0⟩ := e
    by_cases h0 : k0 = k
    · subst h0
      simp [dictInsert, dictGet, Ne.symm h]
    · simp [dictInsert, dictGet, h0, ih]

theorem dictKeys_insert {α β : Type} [DecidableEq α]
    (d : List (α × β)) (k : α) (v : β) :
    dictKeys (dictInsert d k v) =
      if k ∈ dictKeys d then dictKeys d else dictKeys d ++ [k] := by
  induction d with
  | nil => simp [dictInsert, dictKeys]
  | cons e rest ih =>
    obtain ⟨k0, v0⟩ := e
    by_cases h0 : k0 = k
    · subst h0
      simp [dictInsert, dictKeys]
    · simp only [dictInsert, if_neg h0, dictKeys, List.map_cons, List.mem_cons] at ih ⊢
      by_cases hk : k ∈ rest.map Prod.fst
      · simp [ih, hk, Ne.symm h0]
      · simp [ih, hk, Ne.symm h0]

theorem dictKeys_insert_nodup {α β : Type} [DecidableEq α]
    (d : List (α × β)) (k : α) (v : β) (h : (dictKeys d).Nodup) :
    (dictKeys (dictInsert d k v)).Nodup := by
  rw [dictKeys_insert]
  by_cases hk : k ∈ dictKeys d
  · simpa [hk] using h
  · simp only [if_neg hk]
    simpa [List.nodup_append] using ⟨h, hk⟩

theorem mem_of_dictGet {α β : Type} [DecidableEq α]
    {d : List (α × β)} {k : α} {v : β} (h : dictGet d k = some v) : (k, v) ∈ d := by
  induction d with
  | nil => simp [dictGet] at h
  | cons e rest ih =>
    obtain ⟨k0, v0⟩ := e
    by_cases h0 : k0 = k
    · subst h0
      have hv : v0 = v := by simpa [dictGet] using h
      subst hv
      exact List.mem_cons_self _ _
    · simp only [dictGet, if_neg h0] at h
      exact List.mem_cons_of_mem _ (ih h)

theorem dictGet_of_mem_nodup {α β : Type} [DecidableEq α]
    {d : List (α × β)} {k : α} {v : β} (hn : (dictKeys d).Nodup) (h : (k, v) ∈ d) :
    dictGet d k = some v := by
  induction d with
  | nil => simp at h
  | cons e rest ih =>
    obtain ⟨k0, v0⟩ := e
    have hn2 : k0 ∉ dictKeys rest ∧ (dictKeys rest).Nodup := by
      simpa [dictKeys, List.nodup_cons] using hn
    rcases List.mem_cons.mp h with h | h
    · injection h with h1 h2
      subst h1
      subst h2
      simp [dictGet]
    · have hk0 : k0 ≠ k := by
        intro he
        subst he
        exact hn2.1 (by simpa [dictKeys] using List.mem_map_of_mem Prod.fst h)
      simp only [dictGet, if_neg hk0]
      exact ih hn2.2 h

/-! Lemmas about nonDefaultIds and the sync branches. -/

theorem nonDefaultIds_append (l1 l2 : List DRole) :
    nonDefaultIds (l1 ++ l2) = nonDefaultIds l1 ++ nonDefaultIds l2 := by
  simp [nonDefaultIds]

theorem nonDefaultIds_filter_id (l : List DRole) (q : ℕ → Bool) :
    nonDefaultIds (l.filter (fun r => q r.id)) = (nonDefaultIds l).filter q := by
  induction l with
  | nil => rfl
  | cons r rest ih =>
    by_cases hd : r.is_default <;> by_cases hq : q r.id = true <;>
      simp [nonDefaultIds, List.filter_cons, hd, hq] <;>
      simpa [nonDefaultIds] using ih

theorem nonDefaultIds_map_mk (ids : List ℕ) :
    nonDefaultIds (ids.map (fun rid => ({ id := rid, is_default := false } : DRole))) =
      ids := by
  induction ids with
  | nil => rfl
  | cons i rest ih => simpa [nonDefaultIds] using ih

theorem sync_no_main_guild (env : SyncEnv) (user_id : ℕ)
    (h : env.main_guild_found = false) :
    sync_user_roles env user_id =
      ({ success := false, user_id := user_id, roles_added := [], roles_removed := [],
         roles_failed := [], errors := ["main guild not found"], source_servers := [] },
       []) := by
  simp [sync_user_roles, h]

theorem sync_member_not_found (env : SyncEnv) (user_id : ℕ)
    (h1 : env.main_guild_found = true) (h2 : env.main_member = none) :
    sync_user_roles env user_id =
      ({ success := false, user_id := user_id, roles_added := [], roles_removed := [],
         roles_failed := [], errors := ["user not found on main guild"],
         source_servers := [] },
       []) := by
  simp [sync_user_roles, h1, h2]

theorem sync_no_sources (env : SyncEnv) (user_id : ℕ) (roles : List DRole)
    (h1 : env.main_guild_found = true) (h2 : env.main_member = some roles)
    (h3 : (get_user_roles_from_all_guilds env).1 = [])
    (h4 : (get_user_roles_from_all_guilds env).2.2 = []) :
    sync_user_roles env user_id =
      ({ success := true, user_id := user_id, roles_added := [], roles_removed := [],
         roles_failed := [], errors := [], source_servers := [] },
       []) := by
  simp [sync_user_roles, h1, h2, h3, h4]

theorem sync_total_fetch_failure (env : SyncEnv) (user_id : ℕ) (roles : List DRole)
    (h1 : env.main_guild_found = true) (h2 : env.main_member = some roles)
    (h3 : (get_user_roles_from_all_guilds env).1 = [])
    (h4 : (get_user_roles_from_all_guilds env).2.2 ≠ []) :
    sync_user_roles env user_id =
      ({ success := false, user_id := user_id, roles_added := [], roles_removed := [],
         roles_failed := [], errors := (get_user_roles_from_all_guilds env).2.2,
         source_servers := [] },
       []) := by
  have h4b : (get_user_roles_from_all_guilds env).2.2.isEmpty = false :=
    Bool.eq_false_iff.mpr (fun hh => h4 (List.isEmpty_iff.mp hh))
  simp [sync_user_roles, h1, h2, h3, h4b]

theorem sync_main_branch (env : SyncEnv) (user_id : ℕ) (roles : List DRole)
    (h1 : env.main_guild_found = true) (h2 : env.main_member = some roles)
    (h3 : (get_user_roles_from_all_guilds env).1 ≠ []) :
    sync_user_roles env user_id =
      ({ success :=
           ((apply_role_changes env.add_outcome
               (calculate_role_changes env.cache env.role_exists env.can_manage roles
                 (calculate_target_roles env.cache
                   (get_user_roles_from_all_guilds env).2.1)).1
               (calculate_role_changes env.cache env.role_exists env.can_manage roles
                 (calculate_target_roles env.cache
                   (get_user_roles_from_all_guilds env).2.1)).2.1).failed_to_add ++
             (calculate_role_changes env.cache env.role_exists env.can_manage roles
               (calculate_target_roles env.cache
                 (get_user_roles_from_all_guilds env).2.1)).2.2).isEmpty &&
           (get_user_roles_from_all_guilds env).2.2.isEmpty
         user_id := user_id
         roles_added :=
           (apply_role_changes env.add_outcome
             (calculate_role_changes env.cache env.role_exists env.can_manage roles
               (calculate_target_roles env.cache
                 (get_user_roles_from_all_guilds env).2.1)).1
             (calculate_role_changes env.cache env.role_exists env.can_manage roles
               (calculate_target_roles env.cache
                 (get_user_roles_from_all_guilds env).2.1)).2.1).actually_added
         roles_removed :=
           (calculate_role_changes env.cache env.role_exists env.can_manage roles
             (calculate_target_roles env.cache
               (get_user_roles_from_all_guilds env).2.1)).2.1
         roles_failed :=
           (apply_role_changes env.add_outcome
             (calculate_role_changes env.cache env.role_exists env.can_manage roles
               (calculate_target_roles env.cache
                 (get_user_roles_from_all_guilds env).2.1)).1
             (calculate_role_changes env.cache env.role_exists env.can_manage roles
               (calculate_target_roles env.cache
                 (get_user_roles_from_all_guilds env).2.1)).2.1).failed_to_add ++
           (calculate_role_changes env.cache env.role_exists env.can_manage roles
             (calculate_target_roles env.cache
               (get_user_roles_from_all_guilds env).2.1)).2.2
         errors := (get_user_roles_from_all_guilds env).2.2
         source_servers := (get_user_roles_from_all_guilds env).2.1.map Prod.fst },
       (apply_role_changes env.add_outcome
         (calculate_role_changes env.cache env.role_exists env.can_manage roles
           (calculate_target_roles env.cache
             (get_user_roles_from_all_guilds env).2.1)).1
         (calculate_role_changes env.cache env.role_exists env.can_manage roles
           (calculate_target_roles env.cache
             (get_user_roles_from_all_guilds env).2.1)).2.1).calls) := by
  have h3b : (get_user_roles_from_all_guilds env).1.isEmpty = false :=
    Bool.eq_false_iff.mpr (fun hh => h3 (List.isEmpty_iff.mp hh))
  simp [sync_user_roles, h1, h2, h3b]

/-! Claim theorems. -/

/-- C2: for every reconciliation and every pair of input sets, a role the
engine removes is among the current non-default role ids of the subject on
the target guild and is the target role id of some enabled mapping; a role
never produced by any mapping is never removed.  Stated both for the diff
step calculate_role_changes and for the roles_removed field of the
SyncResult returned by sync_user_roles. -/
theorem removal_only_mapped_and_current (cache : MappingCache)
    (re cm : ℕ → Bool) (member_roles : List DRole) (target_role_ids : List ℕ)
    (env : SyncEnv) (user_id r : ℕ) :
    (r ∈ (calculate_role_changes cache re cm member_roles target_role_ids).2.1 →
       r ∈ nonDefaultIds member_roles ∧ is_target_role cache r = true) ∧
    (r ∈ (sync_user_roles env user_id).1.roles_removed →
       is_target_role env.cache r = true ∧
         ∃ roles, env.main_member = some roles ∧ r ∈ nonDefaultIds roles) := by
  constructor
  · intro hr
    rw [calculate_role_changes_eq] at hr
    simp only [List.mem_filter, removeCandidates, currentIds, List.mem_dedup,
      decide_eq_true_eq] at hr
    exact ⟨hr.1.1.1, hr.1.2⟩
  · intro hr
    by_cases hg : env.main_guild_found = true
    · cases hm : env.main_member with
      | none =>
        rw [sync_member_not_found env user_id hg hm] at hr
        simp at hr
      | some roles =>
        by_cases h3 : (get_user_roles_from_all_guilds env).1 = []
        · by_cases h4 : (get_user_roles_from_all_guilds env).2.2 = []
          · rw [sync_no_sources env user_id roles hg hm h3 h4] at hr
            simp at hr
          · rw [sync_total_fetch_failure env user_id roles hg hm h3 h4] at hr
            simp at hr
        · rw [sync_main_branch env user_id roles hg hm h3] at hr
          rw [calculate_role_changes_eq] at hr
          simp only [List.mem_filter, removeCandidates, currentIds, List.mem_dedup,
            decide_eq_true_eq] at hr
          exact ⟨hr.1.2, roles, rfl, hr.1.1.1⟩
    · rw [sync_no_main_guild env user_id (Bool.eq_false_iff.mpr hg)] at hr
      simp at hr

theorem removal_only_mapped_and_current_witness :
    401 ∈ (sync_user_roles envC2 9).1.roles_removed ∧
      (is_target_role envC2.cache 401 = true ∧
        ∃ roles, envC2.main_member = some roles ∧ 401 ∈ nonDefaultIds roles) :=
  ⟨by decide,
   (removal_only_mapped_and_current envC2.cache envC2.role_exists envC2.can_manage
       [] [] envC2 9 401).2 (by decide)⟩

/-- C5: for every reconciliation, the roles_added and roles_failed fields of
the returned SyncResult are disjoint. -/
theorem roles_added_disjoint_roles_failed (env : SyncEnv) (user_id r : ℕ)
    (h : r ∈ (sync_user_roles env user_id).1.roles_added) :
    r ∉ (sync_user_roles env user_id).1.roles_failed := by
  by_cases hg : env.main_guild_found = true
  · cases hm : env.main_member with
    | none =>
      rw [sync_member_not_found env user_id hg hm] at h
      simp at h
    | some roles =>
      by_cases h3 : (get_user_roles_from_all_guilds env).1 = []
      · by_cases h4 : (get_user_roles_from_all_guilds env).2.2 = []
        · rw [sync_no_sources env user_id roles hg hm h3 h4] at h
          simp at h
        · rw [sync_total_fetch_failure env user_id roles hg hm h3 h4] at h
          simp at h
      · rw [sync_main_branch env user_id roles hg hm h3] at h ⊢
        rw [calculate_role_changes_eq] at h ⊢
        intro hf
        rw [List.mem_append] at hf
        cases ho : env.add_outcome with
        | ok =>
          rw [ho] at h hf
          rcases hf with hf | hf
          · rw [(apply_ok_eq _ _).2] at hf
            simp at hf
          · rw [(apply_ok_eq _ _).1] at h
            have hp := (List.mem_filter.mp h).2
            have hnp := (List.mem_filter.mp hf).2
            simp at hnp
            rw [hnp] at hp
            simp at hp
        | forbidden f =>
          rw [ho] at h hf
          rw [(apply_forbidden_eq f _ _).1] at h
          have h1 := List.mem_filter.mp h
          have hp := (List.mem_filter.mp h1.1).2
          have hfr := h1.2
          rcases hf with hf | hf
          · rw [(apply_forbidden_eq f _ _).2] at hf
            have h2 := (List.mem_filter.mp hf).2
            rw [hfr] at h2
            simp at h2
          · have hnp := (List.mem_filter.mp hf).2
            simp at hnp
            rw [hnp] at hp
            simp at hp
        | exn =>
          rw [ho] at h
          rw [(apply_exn_eq _ _).1] at h
          simp at h
  · rw [sync_no_main_guild env user_id (Bool.eq_false_iff.mpr hg)] at h
    simp at h

theorem roles_added_disjoint_roles_failed_witness :
    (401 ∈ (sync_user_roles envC5 9).1.roles_added) ∧
      401 ∉ (sync_user_roles envC5 9).1.roles_failed :=
  ⟨by decide, roles_added_disjoint_roles_failed envC5 9 401 (by decide)⟩

/-- C1: a subject holding target-side role T1, where T1 is the target of an
enabled mapping and is manageable, who is still a member of a source guild
but holds no source role mapping to T1, gets T1 removed by a successful
reconciliation: roles_removed is exactly the singleton T1. -/
theorem sync_removes_stale_mapped_role (mainId srcId T1 user_id : ℕ)
    (cache : MappingCache) (re cm : ℕ → Bool) (ao : AddOutcome) (rok : Bool)
    (hsrc : srcId ≠ mainId)
    (hT1 : is_target_role cache T1 = true)
    (hre : re T1 = true) (hcm : cm T1 = true) :
    (sync_user_roles (envOneStale mainId srcId T1 cache re cm ao rok)
        user_id).1.roles_removed = [T1] ∧
    (sync_user_roles (envOneStale mainId srcId T1 cache re cm ao rok)
        user_id).1.success = true := by
  have hgr : get_user_roles_from_all_guilds (envOneStale mainId srcId T1 cache re cm ao rok) =
      ([srcId], [], []) := by
    simp [get_user_roles_from_all_guilds, envOneStale, gatherRoles, nonDefaultIds, hsrc]
  have hmain := sync_main_branch (envOneStale mainId srcId T1 cache re cm ao rok) user_id
    [{ id := T1, is_default := false }] rfl rfl (by rw [hgr]; simp)
  rw [hmain, hgr]
  have htgt : calculate_target_roles
      (envOneStale mainId srcId T1 cache re cm ao rok).cache
      (([srcId], ([] : List (ℕ × List ℕ)), ([] : List String)).2.1) = [] := by
    simp [calculate_target_roles, get_all_target_roles]
  rw [htgt, calculate_role_changes_eq]
  have haddIds : addIds [{ id := T1, is_default := false }] [] = [] := by
    simp [addIds]
  have hrem : removeCandidates [{ id := T1, is_default := false }] [] = [T1] := by
    simp [removeCandidates, currentIds, nonDefaultIds]
  rw [haddIds, hrem]
  have henvcache : (envOneStale mainId srcId T1 cache re cm ao rok).cache = cache := rfl
  have henvre : (envOneStale mainId srcId T1 cache re cm ao rok).role_exists = re := rfl
  have henvcm : (envOneStale mainId srcId T1 cache re cm ao rok).can_manage = cm := rfl
  have hao : (envOneStale mainId srcId T1 cache re cm ao rok).add_outcome = ao := rfl
  rw [henvcache, henvre, henvcm, hao]
  simp only [List.filter_nil, List.filter_cons, hT1]
  refine ⟨?_, ?_⟩
  · simp [managePred, hre, hcm]
  · simp [apply_role_changes]

theorem sync_removes_stale_mapped_role_witness :
    (2 : ℕ) ≠ 1 ∧ is_target_role [((2, 100), 401)] 401 = true ∧
      (sync_user_roles
          (envOneStale 1 2 401 [((2, 100), 401)] (fun _ => true) (fun _ => true)
            AddOutcome.ok true) 9).1.roles_removed = [401] ∧
      (sync_user_roles
          (envOneStale 1 2 401 [((2, 100), 401)] (fun _ => true) (fun _ => true)
            AddOutcome.ok true) 9).1.success = true :=
  ⟨by decide, by decide,
   (sync_removes_stale_mapped_role 1 2 401 9 [((2, 100), 401)] (fun _ => true)
       (fun _ => true) AddOutcome.ok true (by decide) (by decide) rfl rfl).1,
   (sync_removes_stale_mapped_role 1 2 401 9 [((2, 100), 401)] (fun _ => true)
       (fun _ => true) AddOutcome.ok true (by decide) (by decide) rfl rfl).2⟩

theorem gatherRoles_all_notFound (l : List GuildData)
    (h : ∀ g ∈ l, g.fetch = FetchOutcome.notFound) :
    gatherRoles l = ([], [], []) := by
  induction l with
  | nil => rfl
  | cons g rest ih =>
    have hg := h g (List.mem_cons_self g rest)
    simp [gatherRoles, hg, ih (fun x hx => h x (List.mem_cons_of_mem g hx))]

theorem gatherRoles_all_error (l : List GuildData)
    (h : ∀ g ∈ l, g.fetch = FetchOutcome.error) :
    gatherRoles l = ([], [], l.map (fun g => fetchErrorMsg g.id)) := by
  induction l with
  | nil => rfl
  | cons g rest ih =>
    have hg := h g (List.mem_cons_self g rest)
    simp [gatherRoles, hg, ih (fun x hx => h x (List.mem_cons_of_mem g hx))]

/-- C10: when the subject exists on the main guild but is a member of zero
source guilds and no source fetch failed, the reconciliation returns early as
a success with every list empty, issues no role-mutation call, and in
particular does not remove mapped target-side roles the subject still
holds. -/
theorem sync_zero_sources_no_op (env : SyncEnv) (user_id : ℕ) (roles : List DRole)
    (h1 : env.main_guild_found = true) (h2 : env.main_member = some roles)
    (h3 : ∀ g ∈ env.guilds, g.id ≠ env.main_server_id →
      g.fetch = FetchOutcome.notFound) :
    sync_user_roles env user_id =
      ({ success := true, user_id := user_id, roles_added := [], roles_removed := [],
         roles_failed := [], errors := [], source_servers := [] }, []) := by
  have hfil : ∀ g ∈ env.guilds.filter (fun g => decide (g.id ≠ env.main_server_id)),
      g.fetch = FetchOutcome.notFound := by
    intro g hgm
    have hm := List.mem_filter.mp hgm
    exact h3 g hm.1 (by simpa using hm.2)
  have hg : get_user_roles_from_all_guilds env = ([], [], []) := by
    rw [get_user_roles_from_all_guilds]
    split
    · rfl
    · exact gatherRoles_all_notFound _ hfil
  exact sync_no_sources env user_id roles h1 h2 (by rw [hg]) (by rw [hg])

theorem sync_zero_sources_no_op_witness :
    envC10.main_guild_found = true ∧
      sync_user_roles envC10 9 =
        ({ success := true, user_id := 9, roles_added := [], roles_removed := [],
           roles_failed := [], errors := [], source_servers := [] }, []) :=
  ⟨rfl,
   sync_zero_sources_no_op envC10 9 [{ id := 401, is_default := false }] rfl rfl
     (by decide)⟩

/-- C4: when every source fetch fails (at least one source guild exists and
every one of them raises), the reconciliation is marked failed, adds and
removes nothing, records the fetch errors in the errors field, and issues no
role-mutation call. -/
theorem sync_total_failure_no_mutation (env : SyncEnv) (user_id : ℕ) (roles : List DRole)
    (h1 : env.main_guild_found = true) (h2 : env.main_member = some roles)
    (h3 : ∀ g ∈ env.guilds, g.id ≠ env.main_server_id → g.fetch = FetchOutcome.error)
    (h4 : ∃ g ∈ env.guilds, g.id ≠ env.main_server_id) :
    (sync_user_roles env user_id).1.success = false ∧
    (sync_user_roles env user_id).1.roles_added = [] ∧
    (sync_user_roles env user_id).1.roles_removed = [] ∧
    (sync_user_roles env user_id).1.errors =
      (env.guilds.filter (fun g => decide (g.id ≠ env.main_server_id))).map
        (fun g => fetchErrorMsg g.id) ∧
    (sync_user_roles env user_id).1.errors ≠ [] ∧
    (sync_user_roles env user_id).2 = [] := by
  have hfilne : env.guilds.filter (fun g => decide (g.id ≠ env.main_server_id)) ≠ [] := by
    obtain ⟨g, hgm, hgne⟩ := h4
    intro hnil
    have : g ∈ env.guilds.filter (fun g => decide (g.id ≠ env.main_server_id)) :=
      List.mem_filter.mpr ⟨hgm, by simpa using hgne⟩
    rw [hnil] at this
    exact absurd this (List.not_mem_nil g)
  have hfil : ∀ g ∈ env.guilds.filter (fun g => decide (g.id ≠ env.main_server_id)),
      g.fetch = FetchOutcome.error := by
    intro g hgm
    have hm := List.mem_filter.mp hgm
    exact h3 g hm.1 (by simpa using hm.2)
  have hg : get_user_roles_from_all_guilds env =
      ([], [],
       (env.guilds.filter (fun g => decide (g.id ≠ env.main_server_id))).map
         (fun g => fetchErrorMsg g.id)) := by
    rw [get_user_roles_from_all_guilds]
    have hne : (env.guilds.filter (fun g => decide (g.id ≠ env.main_server_id))).isEmpty
        = false :=
      Bool.eq_false_iff.mpr (fun hh => hfilne (List.isEmpty_iff.mp hh))
    rw [hne]
    simp only [Bool.false_eq_true, if_false]
    exact gatherRoles_all_error _ hfil
  have herrne :
      (env.guilds.filter (fun g => decide (g.id ≠ env.main_server_id))).map
        (fun g => fetchErrorMsg g.id) ≠ [] := by
    intro hnil
    exact hfilne (List.map_eq_nil_iff.mp hnil)
  have hres := sync_total_fetch_failure env user_id roles h1 h2 (by rw [hg]) (by
    rw [hg]
    exact herrne)
  rw [hres, hg]
  exact ⟨rfl, rfl, rfl, rfl, herrne, rfl⟩

theorem sync_total_failure_no_mutation_witness :
    (∀ g ∈ envC4.guilds, g.id ≠ envC4.main_server_id →
        g.fetch = FetchOutcome.error) ∧
      (sync_user_roles envC4 9).1.success = false ∧
      (sync_user_roles envC4 9).1.roles_added = [] ∧
      (sync_user_roles envC4 9).1.roles_removed = [] ∧
      (sync_user_roles envC4 9).1.errors ≠ [] ∧
      (sync_user_roles envC4 9).2 = [] :=
  ⟨by decide,
   (sync_total_failure_no_mutation envC4 9 [{ id := 401, is_default := false }] rfl rfl
       (by decide) ⟨{ id := 2, fetch := FetchOutcome.error }, by decide, by decide⟩).1,
   (sync_total_failure_no_mutation envC4 9 [{ id := 401, is_default := false }] rfl rfl
       (by decide) ⟨{ id := 2, fetch := FetchOutcome.error }, by decide, by decide⟩).2.1,
   (sync_total_failure_no_mutation envC4 9 [{ id := 401, is_default := false }] rfl rfl
       (by decide) ⟨{ id := 2, fetch := FetchOutcome.error }, by decide, by decide⟩).2.2.1,
   (sync_total_failure_no_mutation envC4 9 [{ id := 401, is_default := false }] rfl rfl
       (by decide) ⟨{ id := 2, fetch := FetchOutcome.error }, by decide, by decide⟩).2.2.2.2.1,
   (sync_total_failure_no_mutation envC4 9 [{ id := 401, is_default := false }] rfl rfl
       (by decide) ⟨{ id := 2, fetch := FetchOutcome.error }, by decide, by decide⟩).2.2.2.2.2⟩

/-- C3 (amended): success implies that roles_failed is empty and that no
source-fetch error occurred, for every call; the converse, and hence the
claimed equivalence, holds for every call in which the main guild was found
and the subject is a member of it; and success is unaffected by the outcome
of the remove step.  The unamended equivalence fails on calls that abort
before fetching sources (see the counterexample). -/
theorem success_iff_no_failures (env : SyncEnv) (user_id : ℕ) :
    ((sync_user_roles env user_id).1.success = true →
       (sync_user_roles env user_id).1.roles_failed = [] ∧
         (get_user_roles_from_all_guilds env).2.2 = []) ∧
    (∀ roles, env.main_guild_found = true → env.main_member = some roles →
       ((sync_user_roles env user_id).1.success = true ↔
         (sync_user_roles env user_id).1.roles_failed = [] ∧
           (get_user_roles_from_all_guilds env).2.2 = [])) ∧
    (∀ b : Bool, (sync_user_roles { env with remove_ok := b } user_id).1.success =
       (sync_user_roles env user_id).1.success) := by
  refine ⟨?_, ?_, fun b => rfl⟩
  · intro hs
    by_cases hg : env.main_guild_found = true
    · cases hm : env.main_member with
      | none =>
        rw [sync_member_not_found env user_id hg hm] at hs
        simp at hs
      | some roles =>
        by_cases h3 : (get_user_roles_from_all_guilds env).1 = []
        · by_cases h4 : (get_user_roles_from_all_guilds env).2.2 = []
          · rw [sync_no_sources env user_id roles hg hm h3 h4]
            exact ⟨rfl, h4⟩
          · rw [sync_total_fetch_failure env user_id roles hg hm h3 h4] at hs
            simp at hs
        · rw [sync_main_branch env user_id roles hg hm h3] at hs ⊢
          simp only [Bool.and_eq_true, List.isEmpty_iff] at hs
          exact hs
    · rw [sync_no_main_guild env user_id (Bool.eq_false_iff.mpr hg)] at hs
      simp at hs
  · intro roles hg hm
    by_cases h3 : (get_user_roles_from_all_guilds env).1 = []
    · by_cases h4 : (get_user_roles_from_all_guilds env).2.2 = []
      · rw [sync_no_sources env user_id roles hg hm h3 h4]
        simp [h4]
      · rw [sync_total_fetch_failure env user_id roles hg hm h3 h4]
        simp [h4]
    · rw [sync_main_branch env user_id roles hg hm h3]
      simp only [Bool.and_eq_true, List.isEmpty_iff]

/-- C3 counterexample: a call in which the subject is absent from the main
guild returns success = false although roles_failed is empty and no
source-fetch error occurred, refuting the unamended equivalence. -/
theorem success_iff_no_failures_counterexample :
    (sync_user_roles envC3 9).1.success = false ∧
      (sync_user_roles envC3 9).1.roles_failed = [] ∧
      (get_user_roles_from_all_guilds envC3).2.2 = [] := by
  decide

theorem success_iff_no_failures_witness :
    envC3w.main_guild_found = true ∧
      ((sync_user_roles envC3w 9).1.success = true ↔
        (sync_user_roles envC3w 9).1.roles_failed = [] ∧
          (get_user_roles_from_all_guilds envC3w).2.2 = []) :=
  ⟨rfl,
   (success_iff_no_failures envC3w 9).2.1 [{ id := 55, is_default := false }] rfl rfl⟩

/-- C8: when the bulk add call is rejected with Forbidden, the engine issues
one add call per role; exactly the roles whose individual call failed end up
in the failed list and the ones that succeeded in the added list, the two
lists are disjoint, and no failed role is ever reported as added. -/
theorem bulk_add_fallback_exact (roles_to_add roles_to_remove : List ℕ)
    (f : ℕ → Bool) (h : roles_to_add ≠ []) :
    (apply_role_changes (AddOutcome.forbidden f) roles_to_add
        roles_to_remove).actually_added = roles_to_add.filter f ∧
    (apply_role_changes (AddOutcome.forbidden f) roles_to_add
        roles_to_remove).failed_to_add = roles_to_add.filter (fun r => !(f r)) ∧
    (∀ r, r ∈ (apply_role_changes (AddOutcome.forbidden f) roles_to_add
        roles_to_remove).failed_to_add →
      r ∉ (apply_role_changes (AddOutcome.forbidden f) roles_to_add
        roles_to_remove).actually_added) ∧
    (∀ r, r ∈ roles_to_add →
      MutationCall.addCall [r] ∈ (apply_role_changes (AddOutcome.forbidden f)
        roles_to_add roles_to_remove).calls) := by
  have hne : roles_to_add.isEmpty = false :=
    Bool.eq_false_iff.mpr (fun hh => h (List.isEmpty_iff.mp hh))
  refine ⟨(apply_forbidden_eq f roles_to_add roles_to_remove).1,
    (apply_forbidden_eq f roles_to_add roles_to_remove).2, ?_, ?_⟩
  · intro r hrf hra
    rw [(apply_forbidden_eq f roles_to_add roles_to_remove).1] at hra
    rw [(apply_forbidden_eq f roles_to_add roles_to_remove).2] at hrf
    have h1 := (List.mem_filter.mp hra).2
    have h2 := (List.mem_filter.mp hrf).2
    rw [h1] at h2
    simp at h2
  · intro r hr
    have hcalls : (apply_role_changes (AddOutcome.forbidden f) roles_to_add
        roles_to_remove).calls =
        (MutationCall.addCall roles_to_add ::
          roles_to_add.map (fun x => MutationCall.addCall [x])) ++
          (if roles_to_remove.isEmpty then []
           else [MutationCall.removeCall roles_to_remove]) := by
      simp [apply_role_changes, hne]
    rw [hcalls]
    refine List.mem_append.mpr (Or.inl ?_)
    exact List.mem_cons_of_mem _ (List.mem_map.mpr ⟨r, hr, rfl⟩)

theorem bulk_add_fallback_exact_witness :
    ([401, 402] : List ℕ) ≠ [] ∧
      (apply_role_changes (AddOutcome.forbidden (fun r => r == 401)) [401, 402]
          []).actually_added = [401] ∧
      (apply_role_changes (AddOutcome.forbidden (fun r => r == 401)) [401, 402]
          []).failed_to_add = [402] :=
  ⟨by decide,
   by
     have h := (bulk_add_fallback_exact [401, 402] [] (fun r => r == 401)
       (by decide)).1
     rw [h]
     decide,
   by
     have h := (bulk_add_fallback_exact [401, 402] [] (fun r => r == 401)
       (by decide)).2.1
     rw [h]
     decide⟩

/-- C9: adding a mapping whose id is already present is rejected with an
error and leaves both the durable mapping list and the in-memory cache
unchanged, while removing or updating an unknown mapping id returns the
not-found signal false, raises nothing, and leaves all state unchanged. -/
theorem mapping_admin_failure_semantics (st : MapperState) (m : RoleMapping)
    (missing_id : String) (enabled2 : Option Bool) (descr2 : Option String)
    (hdup : m.id ∈ st.mappings.map RoleMapping.id)
    (hmiss : missing_id ∉ st.mappings.map RoleMapping.id) :
    ((RoleMapper_add_mapping st m.id m.source_server_id m.source_role_id
        m.target_server_id m.target_role_id m.description m.enabled).1.isSome = true ∧
     (RoleMapper_add_mapping st m.id m.source_server_id m.source_role_id
        m.target_server_id m.target_role_id m.description m.enabled).2 = st) ∧
    RoleMapper_remove_mapping st missing_id = (false, st) ∧
    RoleMapper_update_mapping st missing_id enabled2 descr2 = (false, st) := by
  have hany : st.mappings.any (fun m0 => m0.id == m.id) = true := by
    rw [List.any_eq_true]
    obtain ⟨m0, hm0, he⟩ := List.mem_map.mp hdup
    exact ⟨m0, hm0, by simp [he]⟩
  have hfind : get_mapping_by_id st.mappings missing_id = none := by
    rw [get_mapping_by_id, List.find?_eq_none]
    intro m0 hm0
    simp only [beq_iff_eq]
    intro he
    exact hmiss (he ▸ List.mem_map_of_mem RoleMapping.id hm0)
  refine ⟨⟨?_, ?_⟩, ?_, ?_⟩
  · simp [RoleMapper_add_mapping, add_role_mapping, hany]
  · simp [RoleMapper_add_mapping, add_role_mapping, hany]
  · simp [RoleMapper_remove_mapping, hfind]
  · simp [RoleMapper_update_mapping, hfind]

theorem mapping_admin_failure_semantics_witness :
    ("m1" ∈ stC9.mappings.map RoleMapping.id) ∧
      (RoleMapper_add_mapping stC9 "m1" 2 100 1 401 "demo" true).1.isSome = true ∧
      (RoleMapper_add_mapping stC9 "m1" 2 100 1 401 "demo" true).2 = stC9 ∧
      RoleMapper_remove_mapping stC9 "zz" = (false, stC9) ∧
      RoleMapper_update_mapping stC9 "zz" (some false) none = (false, stC9) :=
  ⟨by decide,
   (mapping_admin_failure_semantics stC9
       { id := "m1", source_server_id := 2, source_role_id := 100,
         target_server_id := 1, target_role_id := 401, description := "demo",
         enabled := true }
       "zz" (some false) none (by decide) (by decide)).1.1,
   (mapping_admin_failure_semantics stC9
       { id := "m1", source_server_id := 2, source_role_id := 100,
         target_server_id := 1, target_role_id := 401, description := "demo",
         enabled := true }
       "zz" (some false) none (by decide) (by decide)).1.2,
   (mapping_admin_failure_semantics stC9
       { id := "m1", source_server_id := 2, source_role_id := 100,
         target_server_id := 1, target_role_id := 401, description := "demo",
         enabled := true }
       "zz" (some false) none (by decide) (by decide)).2.1,
   (mapping_admin_failure_semantics stC9
       { id := "m1", source_server_id := 2, source_role_id := 100,
         target_server_id := 1, target_role_id := 401, description := "demo",
         enabled := true }
       "zz" (some false) none (by decide) (by decide)).2.2⟩

theorem foldl_schedule_nodup (u : ℕ) (l : List ℕ) (q : List (ℕ × ℕ))
    (hq : (dictKeys q).Nodup) :
    (dictKeys (l.foldl (fun q2 t => schedule_sync q2 u t) q)).Nodup := by
  induction l generalizing q with
  | nil => exact hq
  | cons t rest ih =>
    exact ih (dictInsert q u t) (dictKeys_insert_nodup q u t hq)

theorem mem_process_ready (q : List (ℕ × ℕ)) (now delay x : ℕ)
    (h : x ∈ (process_pending_syncs q now delay).1) : x ∈ dictKeys q := by
  rw [process_pending_syncs] at h
  obtain ⟨e, he, hex⟩ := List.mem_map.mp h
  exact hex ▸ List.mem_map_of_mem Prod.fst (List.mem_filter.mp he).1

/-- C7: the debounce queue holds at most one entry per subject (scheduling an
already pending subject overwrites the timestamp and never appends a
duplicate), after a burst of changes the pending timestamp is that of the
last change, a drain dispatches the subject only once its age since the last
change reaches the debounce delay, removes it from the queue before
dispatching, dispatches it exactly once, and a later drain does not dispatch
it again. -/
theorem debounce_single_dispatch (pending : List (ℕ × ℕ)) (u : ℕ)
    (ts : List ℕ) (tlast now now2 delay : ℕ)
    (hn : (dictKeys pending).Nodup) :
    (dictKeys ((ts ++ [tlast]).foldl (fun q t => schedule_sync q u t) pending)).Nodup ∧
    dictGet ((ts ++ [tlast]).foldl (fun q t => schedule_sync q u t) pending) u =
      some tlast ∧
    (∀ t, dictKeys (schedule_sync
        ((ts ++ [tlast]).foldl (fun q t => schedule_sync q u t) pending) u t) =
      dictKeys ((ts ++ [tlast]).foldl (fun q t => schedule_sync q u t) pending)) ∧
    (¬ delay ≤ now2 - tlast →
      u ∉ (process_pending_syncs
        ((ts ++ [tlast]).foldl (fun q t => schedule_sync q u t) pending)
        now2 delay).1) ∧
    (delay ≤ now - tlast →
      (process_pending_syncs
          ((ts ++ [tlast]).foldl (fun q t => schedule_sync q u t) pending)
          now delay).1.count u = 1 ∧
        u ∉ dictKeys (process_pending_syncs
          ((ts ++ [tlast]).foldl (fun q t => schedule_sync q u t) pending)
          now delay).2 ∧
        u ∉ (process_pending_syncs
          (process_pending_syncs
            ((ts ++ [tlast]).foldl (fun q t => schedule_sync q u t) pending)
            now delay).2 now2 delay).1) := by
  have hq1 : (ts ++ [tlast]).foldl (fun q t => schedule_sync q u t) pending =
      dictInsert (ts.foldl (fun q t => schedule_sync q u t) pending) u tlast := by
    rw [List.foldl_append]
    rfl
  have hn1 : (dictKeys ((ts ++ [tlast]).foldl
      (fun q t => schedule_sync q u t) pending)).Nodup :=
    foldl_schedule_nodup u (ts ++ [tlast]) pending hn
  have hget : dictGet ((ts ++ [tlast]).foldl
      (fun q t => schedule_sync q u t) pending) u = some tlast := by
    rw [hq1]
    exact dictGet_insert_self _ u tlast
  have hmemq1 : (u, tlast) ∈ (ts ++ [tlast]).foldl
      (fun q t => schedule_sync q u t) pending :=
    mem_of_dictGet hget
  have humem : u ∈ dictKeys ((ts ++ [tlast]).foldl
      (fun q t => schedule_sync q u t) pending) :=
    List.mem_map_of_mem Prod.fst hmemq1
  have hentry : ∀ e ∈ (ts ++ [tlast]).foldl (fun q t => schedule_sync q u t) pending,
      e.1 = u → e.2 = tlast := by
    intro e he hfst
    have hg := dictGet_of_mem_nodup hn1 (show (e.1, e.2) ∈ _ from he)
    rw [hfst, hget] at hg
    exact Option.some.injEq _ _ ▸ (hg.symm ▸ rfl)
  refine ⟨hn1, hget, ?_, ?_, ?_⟩
  · intro t
    rw [schedule_sync, dictKeys_insert, if_pos humem]
  · intro hlt hmem
    rw [process_pending_syncs] at hmem
    obtain ⟨e, he, hex⟩ := List.mem_map.mp hmem
    have he2 := List.mem_filter.mp he
    have hts := hentry e he2.1 hex
    rw [hts] at he2
    exact hlt (by simpa using he2.2)
  · intro hge
    have hready_mem : u ∈ (process_pending_syncs
        ((ts ++ [tlast]).foldl (fun q t => schedule_sync q u t) pending)
        now delay).1 := by
      rw [process_pending_syncs]
      exact List.mem_map.mpr
        ⟨(u, tlast), List.mem_filter.mpr ⟨hmemq1, by simpa using hge⟩, rfl⟩
    have hready_nodup : (process_pending_syncs
        ((ts ++ [tlast]).foldl (fun q t => schedule_sync q u t) pending)
        now delay).1.Nodup := by
      rw [process_pending_syncs]
      exact List.Nodup.sublist
        ((List.filter_sublist _).map Prod.fst) hn1
    have hq2 : u ∉ dictKeys (process_pending_syncs
        ((ts ++ [tlast]).foldl (fun q t => schedule_sync q u t) pending)
        now delay).2 := by
      intro hmem
      rw [process_pending_syncs] at hmem
      obtain ⟨e, he, hex⟩ := List.mem_map.mp hmem
      have he2 := List.mem_filter.mp he
      have hts := hentry e he2.1 hex
      rw [hts] at he2
      have hlt := he2.2
      simp at hlt
      omega
    refine ⟨List.count_eq_one_of_mem hready_nodup hready_mem, hq2, ?_⟩
    intro hmem
    exact hq2 (mem_process_ready _ now2 delay u hmem)

theorem debounce_single_dispatch_witness :
    (dictKeys [((5 : ℕ), (0 : ℕ))]).Nodup ∧
      dictGet (([3] ++ [10]).foldl
        (fun q t => schedule_sync q u7 t) [((5 : ℕ), (0 : ℕ))]) u7 = some 10 ∧
      ((5 : ℕ) ≤ 15 - 10) ∧
      (process_pending_syncs
        (([3] ++ [10]).foldl (fun q t => schedule_sync q u7 t) [((5 : ℕ), (0 : ℕ))])
        15 5).1.count u7 = 1 :=
  ⟨by decide,
   (debounce_single_dispatch [((5 : ℕ), (0 : ℕ))] u7 [3] 10 15 12 5 (by decide)).2.1,
   by decide,
   ((debounce_single_dispatch [((5 : ℕ), (0 : ℕ))] u7 [3] 10 15 12 5
       (by decide)).2.2.2.2 (by decide)).1⟩

theorem env_after_sync_main_server_id (env : SyncEnv) (uid : ℕ) :
    (env_after_sync env uid).main_server_id = env.main_server_id := by
  rw [env_after_sync]
  cases env.main_member <;> rfl

theorem env_after_sync_guilds (env : SyncEnv) (uid : ℕ) :
    (env_after_sync env uid).guilds = env.guilds := by
  rw [env_after_sync]
  cases env.main_member <;> rfl

theorem env_after_sync_main_guild_found (env : SyncEnv) (uid : ℕ) :
    (env_after_sync env uid).main_guild_found = env.main_guild_found := by
  rw [env_after_sync]
  cases env.main_member <;> rfl

theorem env_after_sync_cache (env : SyncEnv) (uid : ℕ) :
    (env_after_sync env uid).cache = env.cache := by
  rw [env_after_sync]
  cases env.main_member <;> rfl

theorem env_after_sync_role_exists (env : SyncEnv) (uid : ℕ) :
    (env_after_sync env uid).role_exists = env.role_exists := by
  rw [env_after_sync]
  cases env.main_member <;> rfl

theorem env_after_sync_can_manage (env : SyncEnv) (uid : ℕ) :
    (env_after_sync env uid).can_manage = env.can_manage := by
  rw [env_after_sync]
  cases env.main_member <;> rfl

theorem env_after_sync_add_outcome (env : SyncEnv) (uid : ℕ) :
    (env_after_sync env uid).add_outcome = env.add_outcome := by
  rw [env_after_sync]
  cases env.main_member <;> rfl

theorem get_user_roles_env_after (env : SyncEnv) (uid : ℕ) :
    get_user_roles_from_all_guilds (env_after_sync env uid) =
      get_user_roles_from_all_guilds env := by
  rw [get_user_roles_from_all_guilds, get_user_roles_from_all_guilds,
    env_after_sync_guilds, env_after_sync_main_server_id]

theorem mem_currentIds_after (rok : Bool) (roles : List DRole)
    (added removed : List ℕ) (x : ℕ) :
    x ∈ currentIds (apply_mutations rok roles added removed) ↔
      ((x ∈ currentIds roles ∧ (rok = true → x ∉ removed)) ∨ x ∈ added) := by
  have hfil := nonDefaultIds_filter_id roles (fun y => decide (y ∉ removed))
  by_cases hro : rok = true
  · rw [apply_mutations, if_pos hro]
    rw [currentIds, nonDefaultIds_append, hfil, nonDefaultIds_map_mk]
    simp [currentIds, List.mem_filter, hro]
  · rw [apply_mutations, if_neg hro]
    rw [currentIds, nonDefaultIds_append, nonDefaultIds_map_mk]
    simp [currentIds, hro]

theorem second_add_mem_core (cache : MappingCache) (re cm : ℕ → Bool) (rok : Bool)
    (roles : List DRole) (T : List ℕ) (added1 : List ℕ) (x : ℕ)
    (hx2 : x ∈ (calculate_role_changes cache re cm
        (apply_mutations rok roles added1
          (calculate_role_changes cache re cm roles T).2.1) T).1) :
    x ∈ (calculate_role_changes cache re cm roles T).1 ∧ x ∉ added1 := by
  rw [calculate_role_changes_eq] at hx2
  have h1 := List.mem_filter.mp hx2
  have hp := h1.2
  have h2 := List.mem_filter.mp (by simpa only [addIds, List.mem_filter] using h1.1 :
    x ∈ List.filter (fun y => decide (y ∉ currentIds (apply_mutations rok roles added1
      (calculate_role_changes cache re cm roles T).2.1))) T.dedup)
  have hT : x ∈ T.dedup := h2.1
  have hnc2 : x ∉ currentIds (apply_mutations rok roles added1
      (calculate_role_changes cache re cm roles T).2.1) := by
    simpa using h2.2
  rw [mem_currentIds_after] at hnc2
  have hnadd : x ∉ added1 := fun hc => hnc2 (Or.inr hc)
  have hncur : x ∉ currentIds roles := by
    intro hcur
    refine hnc2 (Or.inl ⟨hcur, fun hrok hxR => ?_⟩)
    rw [calculate_role_changes_eq] at hxR
    have h3 := List.mem_filter.mp (List.mem_filter.mp hxR).1
    have h4 := List.mem_filter.mp (by
      simpa only [removeCandidates] using h3.1 :
      x ∈ List.filter (fun y => decide (y ∉ T.dedup)) (currentIds roles))
    exact (by simpa using h4.2 : x ∉ T.dedup) hT
  constructor
  · rw [calculate_role_changes_eq]
    refine List.mem_filter.mpr ⟨?_, hp⟩
    rw [addIds]
    exact List.mem_filter.mpr ⟨hT, by simpa using hncur⟩
  · exact hnadd

theorem second_run_no_changes (cache : MappingCache) (re cm : ℕ → Bool)
    (ao : AddOutcome) (rok : Bool) (roles : List DRole) (T : List ℕ) :
    (apply_role_changes ao
        (calculate_role_changes cache re cm
          (apply_mutations rok roles
            (apply_role_changes ao
              (calculate_role_changes cache re cm roles T).1
              (calculate_role_changes cache re cm roles T).2.1).actually_added
            (calculate_role_changes cache re cm roles T).2.1) T).1
        (calculate_role_changes cache re cm
          (apply_mutations rok roles
            (apply_role_changes ao
              (calculate_role_changes cache re cm roles T).1
              (calculate_role_changes cache re cm roles T).2.1).actually_added
            (calculate_role_changes cache re cm roles T).2.1) T).2.1).actually_added
      = [] ∧
    (rok = true →
      (calculate_role_changes cache re cm
        (apply_mutations rok roles
          (apply_role_changes ao
            (calculate_role_changes cache re cm roles T).1
            (calculate_role_changes cache re cm roles T).2.1).actually_added
          (calculate_role_changes cache re cm roles T).2.1) T).2.1 = []) := by
  constructor
  · rw [List.eq_nil_iff_forall_not_mem]
    intro x hx
    cases hao : ao with
    | ok =>
      rw [hao] at hx
      rw [(apply_ok_eq _ _).1] at hx
      have hcore := second_add_mem_core cache re cm rok roles T _ x hx
      rw [(apply_ok_eq _ _).1] at hcore
      exact hcore.2 hcore.1
    | forbidden f =>
      rw [hao] at hx
      rw [(apply_forbidden_eq f _ _).1] at hx
      have hx1 := List.mem_filter.mp hx
      have hcore := second_add_mem_core cache re cm rok roles T _ x hx1.1
      rw [(apply_forbidden_eq f _ _).1] at hcore
      exact hcore.2 (List.mem_filter.mpr ⟨hcore.1, hx1.2⟩)
    | exn =>
      rw [hao] at hx
      rw [(apply_exn_eq _ _).1] at hx
      exact absurd hx (List.not_mem_nil x)
  · intro hrok
    rw [List.eq_nil_iff_forall_not_mem]
    intro x hx
    rw [calculate_role_changes_eq] at hx
    have h1 := List.mem_filter.mp hx
    have hp := h1.2
    have h2 := List.mem_filter.mp h1.1
    have hist := h2.2
    have h3 := List.mem_filter.mp (by
      simpa only [removeCandidates] using h2.1 :
      x ∈ List.filter (fun y => decide (y ∉ T.dedup))
        (currentIds (apply_mutations rok roles
          (apply_role_changes ao
            (calculate_role_changes cache re cm roles T).1
            (calculate_role_changes cache re cm roles T).2.1).actually_added
          (calculate_role_changes cache re cm roles T).2.1)))
    have hxnT : x ∉ T.dedup := by simpa using h3.2
    have hc2 := h3.1
    rw [mem_currentIds_after] at hc2
    rcases hc2 with ⟨hcur, himp⟩ | hadd
    · refine himp hrok ?_
      rw [calculate_role_changes_eq]
      refine List.mem_filter.mpr ⟨List.mem_filter.mpr ⟨?_, hist⟩, hp⟩
      rw [removeCandidates]
      exact List.mem_filter.mpr ⟨hcur, by simpa using hxnT⟩
    · have hx1 : x ∈ (calculate_role_changes cache re cm roles T).1 :=
        mem_actually_added hadd
      rw [calculate_role_changes_eq] at hx1
      have h5 := List.mem_filter.mp (by
        simpa only [addIds] using (List.mem_filter.mp hx1).1 :
        x ∈ List.filter (fun y => decide (y ∉ currentIds roles)) T.dedup)
      exact hxnT h5.1

/-- C6 (amended): reconciling the same subject a second time immediately,
with the source roles, the mapping table and the outside world unchanged and
the target-guild roles carrying exactly the mutations the first run applied,
yields roles_added equal to the empty list unconditionally, and
roles_removed equal to the empty list provided the remove call of the first
run succeeded.  Without that proviso the claim fails: when the remove call
is rejected the stale role stays on the subject and the second run reports
it in roles_removed again (see the counterexample). -/
theorem sync_idempotent_second_run (env : SyncEnv) (user_id : ℕ) :
    (sync_user_roles (env_after_sync env user_id) user_id).1.roles_added = [] ∧
    (env.remove_ok = true →
      (sync_user_roles (env_after_sync env user_id) user_id).1.roles_removed = []) := by
  by_cases hg : env.main_guild_found = true
  · cases hm : env.main_member with
    | none =>
      have henv : env_after_sync env user_id = env := by rw [env_after_sync, hm]
      rw [henv, sync_member_not_found env user_id hg hm]
      exact ⟨rfl, fun _ => rfl⟩
    | some roles =>
      have hg2 : (env_after_sync env user_id).main_guild_found = true := by
        rw [env_after_sync_main_guild_found]
        exact hg
      have hm2 : (env_after_sync env user_id).main_member =
          some (apply_mutations env.remove_ok roles
            (sync_user_roles env user_id).1.roles_added
            (sync_user_roles env user_id).1.roles_removed) := by
        rw [env_after_sync, hm]
      have hgr2 := get_user_roles_env_after env user_id
      by_cases h3 : (get_user_roles_from_all_guilds env).1 = []
      · by_cases h4 : (get_user_roles_from_all_guilds env).2.2 = []
        · rw [sync_no_sources _ user_id _ hg2 hm2 (by rw [hgr2]; exact h3)
            (by rw [hgr2]; exact h4)]
          exact ⟨rfl, fun _ => rfl⟩
        · rw [sync_total_fetch_failure _ user_id _ hg2 hm2 (by rw [hgr2]; exact h3)
            (by rw [hgr2]; exact h4)]
          exact ⟨rfl, fun _ => rfl⟩
      · have hmain1 := sync_main_branch env user_id roles hg hm h3
        have hadded1 : (sync_user_roles env user_id).1.roles_added =
            (apply_role_changes env.add_outcome
              (calculate_role_changes env.cache env.role_exists env.can_manage roles
                (calculate_target_roles env.cache
                  (get_user_roles_from_all_guilds env).2.1)).1
              (calculate_role_changes env.cache env.role_exists env.can_manage roles
                (calculate_target_roles env.cache
                  (get_user_roles_from_all_guilds env).2.1)).2.1).actually_added := by
          rw [hmain1]
        have hremoved1 : (sync_user_roles env user_id).1.roles_removed =
            (calculate_role_changes env.cache env.role_exists env.can_manage roles
              (calculate_target_roles env.cache
                (get_user_roles_from_all_guilds env).2.1)).2.1 := by
          rw [hmain1]
        rw [hadded1, hremoved1] at hm2
        have hmain2 := sync_main_branch (env_after_sync env user_id) user_id _ hg2 hm2
          (by rw [hgr2]; exact h3)
        rw [hmain2, env_after_sync_cache, env_after_sync_role_exists,
          env_after_sync_can_manage, env_after_sync_add_outcome, hgr2]
        exact
          ⟨(second_run_no_changes env.cache env.role_exists env.can_manage
              env.add_outcome env.remove_ok roles
              (calculate_target_roles env.cache
                (get_user_roles_from_all_guilds env).2.1)).1,
           fun hrok =>
             (second_run_no_changes env.cache env.role_exists env.can_manage
               env.add_outcome env.remove_ok roles
               (calculate_target_roles env.cache
                 (get_user_roles_from_all_guilds env).2.1)).2 hrok⟩
  · have hg2 : (env_after_sync env user_id).main_guild_found = false := by
      rw [env_after_sync_main_guild_found]
      exact Bool.eq_false_iff.mpr hg
    rw [sync_no_main_guild _ user_id hg2]
    exact ⟨rfl, fun _ => rfl⟩

/-- C6 counterexample: with the subject, sources, mappings and target roles
unchanged between the two runs (the failed remove call left the stale role
in place), the second run reports roles_removed nonempty again, refuting
the unamended claim. -/
theorem sync_idempotent_second_run_counterexample :
    (sync_user_roles envC6 9).1.roles_removed = [401] ∧
      envC6.remove_ok = false ∧
      (sync_user_roles (env_after_sync envC6 9) 9).1.roles_removed = [401] := by
  decide

theorem sync_idempotent_second_run_witness :
    envC6w.remove_ok = true ∧
      (sync_user_roles (env_after_sync envC6w 9) 9).1.roles_added = [] ∧
      (sync_user_roles (env_after_sync envC6w 9) 9).1.roles_removed = [] :=
  ⟨rfl, (sync_idempotent_second_run envC6w 9).1,
   (sync_idempotent_second_run envC6w 9).2 rfl⟩

end SaesBot
